import Mathlib

/-!
Verification of the facial-recognition attendance application
(src/attendance.py) against its natural-language specification.

The Python source is shallowly embedded: the pure helper functions
become Lean functions, and the stateful UI procedures become functions
from their inputs (widget values, remote-call results, current UI
state) to the state they produce together with the list of remote
calls and UI actions they perform.  The remote services (the face
collection and the table store) are modelled by passing their
responses in as explicit arguments, since those responses are opaque
inputs to the local code.  Machine floats only ever flow through this
code as opaque scores that are compared, stored or pretty-printed,
so they are modelled as rationals; the one place the textual
representation matters, Decimal(str(x)), is modelled by carrying the
string itself.
-/

namespace Attendance

/-! ## Python value model and the float-to-Decimal bridge

The helper float_to_decimal (attendance.py lines 28-36) walks an
arbitrary Python value: floats become Decimal(str(x)), dict values and
list elements are converted recursively, and every other value is
returned unchanged.  A float is modelled by the string str(x)
produces, and Decimal(str(x)) by a decimal carrying the same string.
Dicts are modelled as parallel key and value lists, preserving
insertion order as Python dicts do. -/

inductive PyVal where
  | pyFloat (s : String)
  | pyDecimal (s : String)
  | pyInt (n : Int)
  | pyStr (s : String)
  | pyBool (b : Bool)
  | pyNone
  | pyDict (keys : List PyVal) (vals : List PyVal)
  | pyList (elems : List PyVal)

-- Embedding of float_to_decimal (lines 28-36): the isinstance float
-- branch, the dict comprehension over the values, the list
-- comprehension over the elements, and the identity else branch.
mutual

def float_to_decimal : PyVal → PyVal
  | .pyFloat s => .pyDecimal s
  | .pyDict ks vs => .pyDict ks (float_to_decimal_list vs)
  | .pyList xs => .pyList (float_to_decimal_list xs)
  | v => v

def float_to_decimal_list : List PyVal → List PyVal
  | [] => []
  | x :: xs => float_to_decimal x :: float_to_decimal_list xs

end

-- True when a Python float occurs anywhere inside the value,
-- including inside dict keys.
mutual

def containsFloat : PyVal → Bool
  | .pyFloat _ => true
  | .pyDict ks vs => containsFloatList ks || containsFloatList vs
  | .pyList xs => containsFloatList xs
  | _ => false

def containsFloatList : List PyVal → Bool
  | [] => false
  | x :: xs => containsFloat x || containsFloatList xs

end

-- True when every float inside the value sits in a position the
-- conversion actually reaches: at the top level, as a dict value, or
-- as a list element, hereditarily.  Dict keys must be float-free,
-- because the dict branch of float_to_decimal rebuilds the dict with
-- the same keys.
mutual

def floatsConvertible : PyVal → Bool
  | .pyDict ks vs => !containsFloatList ks && floatsConvertibleList vs
  | .pyList xs => floatsConvertibleList xs
  | _ => true

def floatsConvertibleList : List PyVal → Bool
  | [] => true
  | x :: xs => floatsConvertible x && floatsConvertibleList xs

end

/-! ## Configuration constants (attendance.py lines 17-21) -/

def COLLECTION_ID : String := "FaceAttendanceCollection"

def USERS_TABLE : String := "FaceAttendanceUsers"

def ATTENDANCE_TABLE : String := "FaceAttendanceRecords"

/-! ## Table creation (initialize_aws_resources, lines 39-68)

The function lists the existing tables and issues a create-table call
for each of the two application tables that is missing.  The call is
modelled by the arguments the code passes to create_table; the
function returns the list of create-table calls it issues. -/

structure KeySchemaElement where
  attributeName : String
  keyType : String
deriving DecidableEq

structure AttributeDefinition where
  attributeName : String
  attributeType : String
deriving DecidableEq

structure CreateTableCall where
  tableName : String
  keySchema : List KeySchemaElement
  attributeDefinitions : List AttributeDefinition
deriving DecidableEq

/-- The create_table call for the users table (lines 45-50). -/
def users_table_create : CreateTableCall :=
  { tableName := USERS_TABLE
    keySchema := [{ attributeName := "user_id", keyType := "HASH" }]
    attributeDefinitions := [{ attributeName := "user_id", attributeType := "S" }] }

/-- The create_table call for the attendance table (lines 55-66). -/
def attendance_table_create : CreateTableCall :=
  { tableName := ATTENDANCE_TABLE
    keySchema := [{ attributeName := "user_id", keyType := "HASH" },
                  { attributeName := "timestamp", keyType := "RANGE" }]
    attributeDefinitions := [{ attributeName := "user_id", attributeType := "S" },
                             { attributeName := "timestamp", attributeType := "S" }] }

/-- Embedding of the table-creation part of initialize_aws_resources
(lines 41-68), as a function of the names of the tables that already
exist; it returns the create-table calls issued, in order. -/
def initialize_aws_resources (table_names : List String) : List CreateTableCall :=
  (if USERS_TABLE ∈ table_names then [] else [users_table_create]) ++
    (if ATTENDANCE_TABLE ∈ table_names then [] else [attendance_table_create])

/-! ## UI actions and the per-call-site exception handlers

Each except block in the source is embedded as a function of the debug
toggle and the exception text, returning the UI actions it performs:
a modal dialog (messagebox), an inline status label update
(widget.config with a text argument), or a console print. -/

inductive UIAction where
  | modalDialog (title : String) (msg : String)
  | inlineStatus (widget : String) (msg : String)
  | consolePrint (msg : String)
deriving DecidableEq

def is_modal_dialog : UIAction → Bool
  | .modalDialog _ _ => true
  | _ => false

def is_inline_status : UIAction → Bool
  | .inlineStatus _ _ => true
  | _ => false

def is_console_print : UIAction → Bool
  | .consolePrint _ => true
  | _ => false

/-- A face detail returned by the detect-faces service call; only the
quality attributes are consumed by the local code. -/
structure FaceDetail where
  brightness : ℚ
  sharpness : ℚ
deriving DecidableEq

/-- A face record returned by the index-faces service call. -/
structure FaceRecord where
  face_id : String
  confidence : ℚ
deriving DecidableEq

/-- A face match returned by the search-faces-by-image service call. -/
structure FaceMatch where
  external_image_id : String
  similarity : ℚ
deriving DecidableEq

/-- Embedding of detect_faces_in_image (lines 1225-1244) as a function
of the remote detect-faces outcome: on success it returns the face
details and performs no UI action; on failure it returns the empty
list, prints to the console only when debug is on, and shows no
dialog. -/
def detect_faces_in_image (debug : Bool) (remote : Except String (List FaceDetail)) :
    List FaceDetail × List UIAction :=
  match remote with
  | .ok faces => (faces, [])
  | .error e =>
      ([], if debug then [.consolePrint ("Error detecting faces: " ++ e)] else [])

/-- The except block of register_user (lines 1546-1552): it writes the
error into the register_status label and prints only when debug is
on. -/
def register_user_except (debug : Bool) (e : String) : List UIAction :=
  .inlineStatus "register_status" ("Error: " ++ e) ::
    (if debug then [.consolePrint ("Registration error details: " ++ e)] else [])

/-- The except block of verify_face (lines 1651-1657): it writes the
error into the verify_results label and prints only when debug is
on. -/
def verify_face_except (debug : Bool) (e : String) : List UIAction :=
  .inlineStatus "verify_results" ("Error: " ++ e) ::
    (if debug then [.consolePrint ("Verification error: " ++ e)] else [])

/-- The except block of process_attendance (lines 1835-1847): it packs
the error text into a label inside the results frame and prints only
when debug is on. -/
def process_attendance_except (debug : Bool) (e : String) : List UIAction :=
  .inlineStatus "results_frame" ("Error processing attendance: " ++ e) ::
    (if debug then [.consolePrint ("Attendance processing error: " ++ e)] else [])

/-- The except block of load_users (lines 1882-1888): it shows a modal
error dialog and prints only when debug is on. -/
def load_users_except (debug : Bool) (e : String) : List UIAction :=
  .modalDialog "Error" ("Failed to load users: " ++ e) ::
    (if debug then [.consolePrint ("Error loading users: " ++ e)] else [])

/-- The except block guarding the collection creation in
initialize_aws_resources (lines 76-78): it prints unconditionally,
with no debug guard, and then shows a modal error dialog.  The
function takes no debug argument because the source block never
consults the debug toggle. -/
def initialize_collection_except (e : String) : List UIAction :=
  [.consolePrint ("Error creating collection: " ++ e),
   .modalDialog "Error" ("Failed to initialize AWS resources: " ++ e)]

/-- The error flow of initialize_aws_resources: the table listing and
the create-table calls (lines 41-68) run outside any try block, so a
failure there propagates uncaught to the caller; only the collection
creation (lines 71-78) is guarded, by the handler above.  The result
is the uncaught exception, or the returned boolean paired with the UI
actions performed. -/
def initialize_aws_resources_errors (tables_result : Except String Unit)
    (collection_result : Except String Unit) : Except String (Bool × List UIAction) :=
  match tables_result with
  | .error e => .error e
  | .ok _ =>
      match collection_result with
      | .error e => .ok (false, initialize_collection_except e)
      | .ok _ => .ok (true, [])

/-! ## View refresh from full table scans (C3)

load_users (lines 1850-1888) deletes every row of the users treeview
and re-inserts one row per item of a full scan of the users table.
load_attendance_report (lines 1993-2081) deletes every row of the
attendance treeview, validates the date, and re-inserts one row per
item of a scan of the attendance table filtered with
begins_with(timestamp, date).  The treeview contents are modelled as
lists of row records; the outcome of the strptime date validation is
passed in as a boolean. -/

structure UserItem where
  user_id : String
  name : String
  email : String
  department : String
  face_id : String
  confidence : ℚ
  created_at : String
deriving DecidableEq

structure UserRow where
  user_id : String
  name : String
  email : String
  department : String
  registered_on : String
deriving DecidableEq

/-- The date formatting of lines 1861-1869: an isoformat timestamp
YYYY-MM-DDTHH:MM:SS is rendered with strftime as YYYY-MM-DD HH:MM,
which on isoformat input equals its first sixteen characters with the
T separator replaced by a space; the empty string stays empty. -/
def format_created_at (s : String) : String :=
  if s = "" then "" else ((s.replace "T" " ").take 16)

/-- The values tuple inserted per scanned user (lines 1871-1877). -/
def user_row (u : UserItem) : UserRow :=
  { user_id := u.user_id
    name := u.name
    email := u.email
    department := u.department
    registered_on := format_created_at u.created_at }

/-- The row-deletion loop run at the top of each view refresh (lines
1851-1853 and 1994-1996): every existing row is deleted. -/
def clear_tree_rows {α : Type} (_rows : List α) : List α := []

/-- Embedding of load_users (lines 1850-1877): clear the view, then
insert one row at the end per item of the users-table scan. -/
def load_users (prev : List UserRow) (scan_items : List UserItem) : List UserRow :=
  scan_items.foldl (fun acc u => acc ++ [user_row u]) (clear_tree_rows prev)

structure AttendanceRecord where
  user_id : String
  name : String
  timestamp : String
  status : String
  confidence : ℚ
deriving DecidableEq

structure AttendanceRow where
  user_id : String
  name : String
  time : String
  status : String
  confidence_display : String
deriving DecidableEq

/-- The time formatting of lines 2049-2057: an isoformat timestamp is
rendered with strftime as HH:MM:SS, which on isoformat input equals
characters 11 through 18; the empty string stays empty. -/
def format_record_time (ts : String) : String :=
  if ts = "" then "" else ((ts.drop 11).take 8)

/-- Two-decimal fixed-point rendering of a nonnegative score, the
shape produced by the percent formatting on lines 2060-2064 (the
stored scores are nonnegative percentages). -/
def format_fixed2 (c : ℚ) : String :=
  let n : Nat := (Int.floor (c * 100 + 1 / 2)).toNat
  toString (n / 100) ++ "." ++ (if n % 100 < 10 then "0" else "") ++ toString (n % 100)

/-- The values tuple inserted per scanned attendance record (lines
2067-2073). -/
def attendance_row (r : AttendanceRecord) : AttendanceRow :=
  { user_id := r.user_id
    name := r.name
    time := format_record_time r.timestamp
    status := r.status
    confidence_display := format_fixed2 r.confidence ++ "%" }

/-- The begins_with predicate of the scan filter expression: true when
the second string is a prefix of the first. -/
def begins_with (s q : String) : Bool :=
  q.data.isPrefixOf s.data

/-- The filtered scan of the attendance table (lines 2009-2014): the
filter expression begins_with(timestamp, date) keeps the records whose
timestamp starts with the date string. -/
def attendance_scan (table : List AttendanceRecord) (date : String) : List AttendanceRecord :=
  table.filter (fun r => begins_with r.timestamp date)

/-- Embedding of load_attendance_report (lines 1993-2073) restricted
to the displayed rows: the view is cleared first; when the date string
fails strptime validation the function returns with the view empty,
otherwise it inserts one row per record of the filtered scan. -/
def load_attendance_report (prev : List AttendanceRow) (date_valid : Bool)
    (table : List AttendanceRecord) (date : String) : List AttendanceRow :=
  if date_valid then
    (attendance_scan table date).foldl (fun acc r => acc ++ [attendance_row r])
      (clear_tree_rows prev)
  else clear_tree_rows prev

/-! ## CSV export (export_attendance_report, lines 2083-2148) -/

def csv_header : String := "User ID,Name,Time,Status,Confidence"

/-- One CSV line per record (lines 2114-2134), fields in the order
user_id, name, formatted time, status, formatted confidence. -/
def record_csv_line (r : AttendanceRecord) : String :=
  r.user_id ++ "," ++ r.name ++ "," ++ format_record_time r.timestamp ++ "," ++
    r.status ++ "," ++ format_fixed2 r.confidence ++ "%"

/-- The accumulated CSV text (lines 2112-2134): the header line first,
then one line per record, each terminated by a newline. -/
def csv_content (records : List AttendanceRecord) : String :=
  records.foldl (fun acc r => acc ++ record_csv_line r ++ "\n") (csv_header ++ "\n")

/-- Embedding of export_attendance_report: it scans the attendance
table filtered by the report date; with no matching records it shows
an info dialog and writes nothing; when the operator cancels the save
dialog (no path) it writes nothing; otherwise it writes the CSV text
to the chosen path.  The result is the written file as a path-content
pair, or none when no file is written. -/
def export_attendance_report (table : List AttendanceRecord) (date : String)
    (save_path : Option String) : Option (String × String) :=
  let records := attendance_scan table date
  if records.isEmpty then none
  else
    match save_path with
    | none => none
    | some p => some (p, csv_content records)

/-! ## Slider values and the search-faces calls (C4, C8)

The ttk sliders produce machine floats; the code converts them with
int(float(v)).  The slider value is modelled as a rational and the
conversion as truncation toward zero, which Python int() performs. -/

/-- Python int() applied to a numeric value: truncation toward
zero. -/
def py_int (v : ℚ) : Int :=
  if 0 ≤ v then Int.floor v else -Int.floor (-v)

/-- Match-threshold slider configuration (lines 529-530). -/
def match_threshold_min : ℚ := 50

def match_threshold_max : ℚ := 99

def match_threshold_default : ℚ := 70

/-- Quality-threshold slider configuration (lines 439-440). -/
def quality_threshold_min : ℚ := 70

def quality_threshold_max : ℚ := 99

def quality_threshold_default : ℚ := 80

/-- The QualityFilter tier computed from the quality threshold (lines
1474-1484): the initial AUTO value is overwritten on every branch of
the if/elif/elif/else chain, so the result is a pure function of the
threshold. -/
def quality_filter_of (quality_threshold : Int) : String :=
  if quality_threshold ≥ 90 then "HIGH"
  else if quality_threshold ≥ 70 then "MEDIUM"
  else if quality_threshold ≥ 50 then "LOW"
  else "NONE"

/-- The arguments of a search_faces_by_image call. -/
structure SearchFacesCall where
  collectionId : String
  maxFaces : Nat
  faceMatchThreshold : Int
deriving DecidableEq

/-- A remote call issued by one of the embedded procedures, carrying
the arguments the local code passes. -/
inductive RemoteCall where
  | getItem (table : String) (key : String)
  | detectFaces
  | indexFaces (collectionId : String) (externalImageId : String) (qualityFilter : String)
  | searchFacesByImage (c : SearchFacesCall)
  | putItemUser (item : UserItem)
  | putItemAttendance (item : AttendanceRecord)
deriving DecidableEq

def is_index_faces : RemoteCall → Bool
  | .indexFaces _ _ _ => true
  | _ => false

def is_put_item : RemoteCall → Bool
  | .putItemUser _ => true
  | .putItemAttendance _ => true
  | _ => false

/-- True unless the call is a face search with parameters other than
the given match cap and similarity threshold. -/
def search_call_matches (mf : Nat) (th : Int) : RemoteCall → Bool
  | .searchFacesByImage c =>
      c.collectionId == COLLECTION_ID && c.maxFaces == mf && c.faceMatchThreshold == th
  | _ => true

/-- True unless the call is an index-faces call whose quality filter
is neither MEDIUM nor HIGH. -/
def index_quality_medium_or_high : RemoteCall → Bool
  | .indexFaces _ _ q => q == "MEDIUM" || q == "HIGH"
  | _ => true

/-- True unless the call stores an attendance item whose status
differs from the one determined by the capture hour (lines
1762-1769). -/
def put_status_of (hour : Nat) : RemoteCall → Bool
  | .putItemAttendance item => item.status == (if 9 ≤ hour then "late" else "present")
  | _ => true

/-! ## register_user (lines 1405-1552)

The inputs are the stripped form-field texts, the captured-image flag,
the quality slider value, and the responses of the remote calls the
procedure makes, in order: whether get_item found the user, the
detect-faces details, the operator answer to the low-quality prompt,
and the FaceRecords of the index-faces response.  The result carries
the text this run wrote into the register_status label (empty when the
run does not touch it), the remote calls issued, and whether the user
was stored. -/

structure RegisterInput where
  user_id : String
  name : String
  email : String
  department : String
  has_image : Bool
  quality_scale : ℚ
  user_exists : Bool
  face_details : List FaceDetail
  low_quality_confirm : Bool
  index_face_records : List FaceRecord
  now_iso : String
deriving DecidableEq

structure RegisterResult where
  status : String
  calls : List RemoteCall
  success : Bool
deriving DecidableEq

def register_user (i : RegisterInput) : RegisterResult :=
  if i.user_id = "" ∨ i.name = "" ∨ i.email = "" ∨ i.department = "" then
    { status := "Please fill in all fields", calls := [], success := false }
  else if !i.has_image then
    { status := "Please capture an image first", calls := [], success := false }
  else
    let calls0 := [RemoteCall.getItem USERS_TABLE i.user_id]
    if i.user_exists then
      { status := "User ID " ++ i.user_id ++ " already exists", calls := calls0,
        success := false }
    else
      let calls1 := calls0 ++ [RemoteCall.detectFaces]
      if i.face_details.isEmpty then
        { status := "No face detected in the image. Please try again.", calls := calls1,
          success := false }
      else if 1 < i.face_details.length then
        { status := "Multiple faces detected. Please use an image with only one face.",
          calls := calls1, success := false }
      else
        let fd := i.face_details.headD { brightness := 0, sharpness := 0 }
        if (fd.brightness < 30 ∨ fd.sharpness < 30) ∧ !i.low_quality_confirm then
          { status := "", calls := calls1, success := false }
        else
          let qt : Int := py_int i.quality_scale
          let calls2 := calls1 ++
            [RemoteCall.indexFaces COLLECTION_ID i.user_id (quality_filter_of qt)]
          if i.index_face_records.isEmpty then
            { status := "No face detected or face quality too low. Please try again.",
              calls := calls2, success := false }
          else
            let fr := i.index_face_records.headD { face_id := "", confidence := 0 }
            let item : UserItem :=
              { user_id := i.user_id, name := i.name, email := i.email,
                department := i.department, face_id := fr.face_id,
                confidence := fr.confidence, created_at := i.now_iso }
            { status := "", calls := calls2 ++ [RemoteCall.putItemUser item],
              success := true }

/-! ## verify_face (lines 1555-1657)

The result texts are abbreviated to their identifying prefixes; the
similarity percentages interpolated into them are not modelled, since
no claim concerns them.  The remote calls carry their full
arguments. -/

structure VerifyInput where
  has_image : Bool
  user_id : String
  face_details : List FaceDetail
  face_matches : List FaceMatch
  user_found : Option UserItem
deriving DecidableEq

structure VerifyResult where
  calls : List RemoteCall
  result_text : String
deriving DecidableEq

def verify_face (i : VerifyInput) : VerifyResult :=
  if !i.has_image then { calls := [], result_text := "" }
  else if i.user_id = "" then { calls := [], result_text := "" }
  else
    let calls1 := [RemoteCall.detectFaces]
    if i.face_details.isEmpty then
      { calls := calls1, result_text := "No face detected in the image. Please try again." }
    else if 1 < i.face_details.length then
      { calls := calls1,
        result_text := "Multiple faces detected. Please use an image with only one face." }
    else
      let sc : SearchFacesCall :=
        { collectionId := COLLECTION_ID, maxFaces := 10, faceMatchThreshold := 50 }
      let calls2 := calls1 ++ [RemoteCall.searchFacesByImage sc]
      match i.face_matches.find? (fun m => m.external_image_id == i.user_id) with
      | some m =>
          let calls3 := calls2 ++ [RemoteCall.getItem USERS_TABLE i.user_id]
          match i.user_found with
          | some user =>
              if (80 : ℚ) ≤ m.similarity then
                { calls := calls3,
                  result_text := " VERIFIED: " ++ user.name ++ " (" ++ i.user_id ++ ")" }
              else
                { calls := calls3,
                  result_text := " POSSIBLE MATCH: " ++ user.name ++ " (" ++ i.user_id ++ ")" }
          | none =>
              { calls := calls3, result_text := " User data not found for " ++ i.user_id }
      | none =>
          match i.face_matches with
          | [] =>
              { calls := calls2,
                result_text := " NOT VERIFIED: No match found for " ++ i.user_id }
          | other :: _ =>
              { calls := calls2,
                result_text := " NOT VERIFIED: No match found for " ++ i.user_id ++
                  " Possible match with " ++ other.external_image_id }

/-! ## process_attendance (lines 1660-1847)

Inputs: the captured-image flag, the match-threshold slider value, and
the responses of the remote calls in order.  The result carries the
remote calls issued and the attendance record written, if any. -/

structure ProcessInput where
  has_image : Bool
  match_scale : ℚ
  face_details : List FaceDetail
  face_matches : List FaceMatch
  user_found : Option UserItem
  hour : Nat
  now_iso : String
deriving DecidableEq

structure ProcessResult where
  calls : List RemoteCall
  recorded : Option AttendanceRecord
deriving DecidableEq

def process_attendance (i : ProcessInput) : ProcessResult :=
  if !i.has_image then { calls := [], recorded := none }
  else
    let th : Int := py_int i.match_scale
    let calls1 := [RemoteCall.detectFaces]
    if i.face_details.isEmpty then { calls := calls1, recorded := none }
    else
      let sc : SearchFacesCall :=
        { collectionId := COLLECTION_ID, maxFaces := 1, faceMatchThreshold := th }
      let calls2 := calls1 ++ [RemoteCall.searchFacesByImage sc]
      if i.face_matches.isEmpty then { calls := calls2, recorded := none }
      else
        let m := i.face_matches.headD { external_image_id := "", similarity := 0 }
        let calls3 := calls2 ++ [RemoteCall.getItem USERS_TABLE m.external_image_id]
        match i.user_found with
        | none => { calls := calls3, recorded := none }
        | some user =>
            let status := if 9 ≤ i.hour then "late" else "present"
            let item : AttendanceRecord :=
              { user_id := m.external_image_id, name := user.name,
                timestamp := i.now_iso, status := status,
                confidence := m.similarity }
            { calls := calls3 ++ [RemoteCall.putItemAttendance item],
              recorded := some item }

/-! ## Camera thread (start_camera, stop_camera, update_camera,
lines 1045-1205)

The relevant state is the running flag, whether a capture device is
open, and the number of live camera threads.  start_camera returns at
once when the flag is set; otherwise it opens the device (the open and
test-read outcomes are inputs), and only on success sets the flag and
spawns one thread.  stop_camera clears the flag and joins the thread
with a one-second timeout (line 1123); the thread exits its read loop
once the flag is down, but a read blocking past the timeout leaves it
alive when stop_camera returns, so the join outcome is an input of the
stop step.  A thread can also exit on its own after a failed read. -/

structure CameraState where
  is_camera_running : Bool
  camera_open : Bool
  thread_count : Nat
deriving DecidableEq

def initial_camera_state : CameraState :=
  { is_camera_running := false, camera_open := false, thread_count := 0 }

def start_camera (s : CameraState) (open_ok : Bool) (read_ok : Bool) : CameraState :=
  if s.is_camera_running then s
  else if !open_ok then { s with camera_open := false }
  else if !read_ok then { s with camera_open := false }
  else { is_camera_running := true, camera_open := true, thread_count := s.thread_count + 1 }

def stop_camera (s : CameraState) (join_completed : Bool) : CameraState :=
  { is_camera_running := false, camera_open := false,
    thread_count := if join_completed then 0 else s.thread_count }

inductive CameraEvent where
  | start (open_ok : Bool) (read_ok : Bool)
  | stop (join_completed : Bool)
  | threadExit
deriving DecidableEq

def camera_step (s : CameraState) : CameraEvent → CameraState
  | .start o r => start_camera s o r
  | .stop j => stop_camera s j
  | .threadExit => { s with thread_count := s.thread_count - 1 }

def camera_run (events : List CameraEvent) : CameraState :=
  events.foldl camera_step initial_camera_state

/-- True unless the event is a stop whose one-second join timed out
with the camera thread still alive. -/
def stop_join_ok : CameraEvent → Bool
  | .stop j => j
  | _ => true

/-- A widget update performed for a camera frame. -/
inductive UIUpdate where
  | displayFrame
  | faceCheck
deriving DecidableEq

/-- The widget traffic of one iteration of the update_camera loop
body (lines 1150-1196): widget updates posted through after_idle
versus widget updates performed directly on the camera thread. -/
structure CameraIterationOutput where
  posted_after_idle : List UIUpdate
  direct_widget_updates : List UIUpdate
  breaks : Bool
deriving DecidableEq

/-- One iteration of the update_camera loop: on a successful read the
frame display update is posted via after_idle (line 1170), and on the
register tab every tenth frame a face check is posted via after_idle
(line 1174); no widget is touched directly from the thread.  On a
failed read the loop breaks. -/
def update_camera_iteration (read_ok : Bool) (is_register_tab : Bool)
    (frame_count : Nat) : CameraIterationOutput :=
  if read_ok then
    { posted_after_idle :=
        UIUpdate.displayFrame ::
          (if is_register_tab ∧ frame_count % 10 = 0 then [UIUpdate.faceCheck] else [])
      direct_widget_updates := []
      breaks := false }
  else { posted_after_idle := [], direct_widget_updates := [], breaks := true }

/-- The camera-thread invariant: never more than one live thread, and
no thread at all while the running flag is down. -/
def camera_inv (s : CameraState) : Prop :=
  s.thread_count ≤ 1 ∧ (s.is_camera_running = false → s.thread_count = 0)

end Attendance

/-! ## Theorems -/

namespace Attendance

theorem float_to_decimal_list_eq_map (xs : List PyVal) :
    float_to_decimal_list xs = xs.map float_to_decimal := by
  induction xs with
  | nil => rfl
  | cons x xs ih => simp [float_to_decimal_list, ih]

mutual

theorem containsFloat_float_to_decimal :
    ∀ v : PyVal, floatsConvertible v = true → containsFloat (float_to_decimal v) = false
  | .pyFloat _, _ => rfl
  | .pyDecimal _, _ => rfl
  | .pyInt _, _ => rfl
  | .pyStr _, _ => rfl
  | .pyBool _, _ => rfl
  | .pyNone, _ => rfl
  | .pyDict ks vs, h => by
      rw [floatsConvertible] at h
      have h1 : containsFloatList ks = false := by
        have := ((Bool.and_eq_true _ _).mp h).1
        simpa using this
      have h2 : floatsConvertibleList vs = true := ((Bool.and_eq_true _ _).mp h).2
      rw [float_to_decimal, containsFloat, h1,
        containsFloatList_float_to_decimal_list vs h2]
      rfl
  | .pyList xs, h => by
      rw [floatsConvertible] at h
      rw [float_to_decimal, containsFloat,
        containsFloatList_float_to_decimal_list xs h]

theorem containsFloatList_float_to_decimal_list :
    ∀ xs : List PyVal, floatsConvertibleList xs = true →
      containsFloatList (float_to_decimal_list xs) = false
  | [], _ => rfl
  | x :: xs, h => by
      rw [floatsConvertibleList] at h
      have hx : floatsConvertible x = true := ((Bool.and_eq_true _ _).mp h).1
      have hxs : floatsConvertibleList xs = true := ((Bool.and_eq_true _ _).mp h).2
      rw [float_to_decimal_list, containsFloatList,
        containsFloat_float_to_decimal x hx,
        containsFloatList_float_to_decimal_list xs hxs]
      rfl

end

/-- C1, counterexample: on a dict whose key is the float 0.5, the
conversion returns the dict with the same float key, so the output
does contain a float, against the no-float-anywhere conclusion of the
claim. -/
theorem float_to_decimal_float_key_counterexample :
    containsFloat (float_to_decimal (.pyDict [.pyFloat "0.5"] [.pyStr "a"])) = true := by
  decide

/-- C1 (amended): float_to_decimal maps a float to Decimal of its
string form, returns a dict with the same keys whose values are the
recursive conversion, returns a list of the same length and order
whose elements are the recursive conversion, and returns every other
value unchanged; the output contains no float anywhere provided every
float of the input sits in a position the conversion reaches, that is,
at the top level or nested only through dict values and list elements,
with all dict keys float-free. -/
theorem float_to_decimal_spec (s : String) (n : Int) (b : Bool)
    (ks vs xs : List PyVal) (v : PyVal) :
    float_to_decimal (.pyFloat s) = .pyDecimal s ∧
    float_to_decimal (.pyDict ks vs) = .pyDict ks (vs.map float_to_decimal) ∧
    float_to_decimal (.pyList xs) = .pyList (xs.map float_to_decimal) ∧
    (xs.map float_to_decimal).length = xs.length ∧
    float_to_decimal (.pyInt n) = .pyInt n ∧
    float_to_decimal (.pyStr s) = .pyStr s ∧
    float_to_decimal (.pyBool b) = .pyBool b ∧
    float_to_decimal .pyNone = .pyNone ∧
    float_to_decimal (.pyDecimal s) = .pyDecimal s ∧
    (floatsConvertible v = true → containsFloat (float_to_decimal v) = false) := by
  refine ⟨rfl, ?_, ?_, List.length_map _ _, rfl, rfl, rfl, rfl, rfl, ?_⟩
  · rw [float_to_decimal, float_to_decimal_list_eq_map]
  · rw [float_to_decimal, float_to_decimal_list_eq_map]
  · exact containsFloat_float_to_decimal v

/-- C1, witness: the amended no-float conclusion evaluated on the
dict with a string key and a float value. -/
theorem float_to_decimal_spec_witness :
    floatsConvertible (.pyDict [.pyStr "confidence"] [.pyFloat "0.5"]) = true ∧
    containsFloat (float_to_decimal (.pyDict [.pyStr "confidence"] [.pyFloat "0.5"])) = false :=
  ⟨by decide,
    (float_to_decimal_spec "" 0 true [] [] []
      (.pyDict [.pyStr "confidence"] [.pyFloat "0.5"])).2.2.2.2.2.2.2.2.2 (by decide)⟩

end Attendance

namespace Attendance

/-- C2, counterexample: at the failure of each of the four listed
call sites, with the debug toggle on and exception text boom, none of
the actions performed is a modal dialog, against the claim that every
remote-call failure is shown via a modal dialog. -/
theorem remote_error_no_modal_counterexample :
    (detect_faces_in_image true (Except.error "boom")).2.any is_modal_dialog = false ∧
    (register_user_except true "boom").any is_modal_dialog = false ∧
    (verify_face_except true "boom").any is_modal_dialog = false ∧
    (process_attendance_except true "boom").any is_modal_dialog = false := by
  decide

/-- C2 (amended): at the four named call sites
(detect_faces_in_image, register_user, verify_face,
process_attendance) the failure is caught at the call site and printed
to the console exactly when the debug toggle is enabled, but none
shows a modal dialog: register_user, verify_face and
process_attendance surface the error through an in-window status
label, while detect_faces_in_image surfaces nothing and returns the
empty face list.  The pattern is not universal over remote calls:
load_users shows a modal dialog; the table listing and create-table
calls of initialize_aws_resources are not caught at all, so their
failure propagates to the caller; and the collection-creation handler
of initialize_aws_resources prints to the console regardless of the
debug toggle while also showing a modal dialog. -/
theorem remote_error_handling_spec (debug : Bool) (e : String)
    (cres : Except String Unit) :
    (detect_faces_in_image debug (Except.error e)).1 = [] ∧
    (detect_faces_in_image debug (Except.error e)).2.any is_modal_dialog = false ∧
    (detect_faces_in_image debug (Except.error e)).2.any is_console_print = debug ∧
    (register_user_except debug e).any is_modal_dialog = false ∧
    (register_user_except debug e).any is_inline_status = true ∧
    (register_user_except debug e).any is_console_print = debug ∧
    (verify_face_except debug e).any is_modal_dialog = false ∧
    (verify_face_except debug e).any is_inline_status = true ∧
    (verify_face_except debug e).any is_console_print = debug ∧
    (process_attendance_except debug e).any is_modal_dialog = false ∧
    (process_attendance_except debug e).any is_inline_status = true ∧
    (process_attendance_except debug e).any is_console_print = debug ∧
    (load_users_except debug e).any is_modal_dialog = true ∧
    (load_users_except debug e).any is_console_print = debug ∧
    initialize_aws_resources_errors (Except.error e) cres = Except.error e ∧
    initialize_aws_resources_errors (Except.ok ()) (Except.error e) =
      Except.ok (false, initialize_collection_except e) ∧
    (initialize_collection_except e).any is_console_print = true ∧
    (initialize_collection_except e).any is_modal_dialog = true := by
  cases debug <;>
    simp [detect_faces_in_image, register_user_except, verify_face_except,
      process_attendance_except, load_users_except, initialize_collection_except,
      initialize_aws_resources_errors, is_modal_dialog,
      is_inline_status, is_console_print]

theorem foldl_append_singleton {α β : Type} (f : α → β) (xs : List α) (acc : List β) :
    xs.foldl (fun a x => a ++ [f x]) acc = acc ++ xs.map f := by
  induction xs generalizing acc with
  | nil => simp
  | cons x xs ih => simp [ih]

/-- C3: a view refresh rebuilds the view solely from the scan result.
load_users clears all displayed rows and re-inserts exactly one row
per item of the users-table scan, load_attendance_report clears all
displayed rows and re-inserts exactly one row per record of the
filtered attendance scan (and leaves the view empty when the date
fails validation); neither result depends on the previously displayed
rows, so no locally cached record survives a refresh. -/
theorem view_refresh_spec (prev prev2 : List UserRow) (items : List UserItem)
    (aprev aprev2 : List AttendanceRow) (table : List AttendanceRecord) (date : String) :
    load_users prev items = items.map user_row ∧
    (load_users prev items).length = items.length ∧
    load_users prev items = load_users prev2 items ∧
    load_attendance_report aprev true table date =
      (attendance_scan table date).map attendance_row ∧
    (load_attendance_report aprev true table date).length =
      (attendance_scan table date).length ∧
    load_attendance_report aprev true table date =
      load_attendance_report aprev2 true table date ∧
    load_attendance_report aprev false table date = [] := by
  have hu : ∀ p : List UserRow, load_users p items = items.map user_row := by
    intro p
    simp [load_users, clear_tree_rows, foldl_append_singleton]
  have ha : ∀ p : List AttendanceRow,
      load_attendance_report p true table date =
        (attendance_scan table date).map attendance_row := by
    intro p
    simp [load_attendance_report, clear_tree_rows, foldl_append_singleton]
  refine ⟨hu prev, ?_, ?_, ha aprev, ?_, ?_, rfl⟩
  · rw [hu prev, List.length_map]
  · rw [hu prev, hu prev2]
  · rw [ha aprev, List.length_map]
  · rw [ha aprev, ha aprev2]

end Attendance

namespace Attendance

/-- C6: initialize_aws_resources creates the users table with a single
string hash key user_id and the attendance table with composite string
hash key user_id and string range key timestamp; it issues a
create-table call for each of the two tables exactly when that table
name is absent from the list of existing tables, and a second run with
both tables present creates nothing. -/
theorem initialize_aws_resources_spec (names : List String) :
    users_table_create.tableName = USERS_TABLE ∧
    users_table_create.keySchema = [{ attributeName := "user_id", keyType := "HASH" }] ∧
    users_table_create.attributeDefinitions =
      [{ attributeName := "user_id", attributeType := "S" }] ∧
    attendance_table_create.tableName = ATTENDANCE_TABLE ∧
    attendance_table_create.keySchema =
      [{ attributeName := "user_id", keyType := "HASH" },
       { attributeName := "timestamp", keyType := "RANGE" }] ∧
    attendance_table_create.attributeDefinitions =
      [{ attributeName := "user_id", attributeType := "S" },
       { attributeName := "timestamp", attributeType := "S" }] ∧
    ((initialize_aws_resources names).any fun c => c.tableName == USERS_TABLE) =
      !names.contains USERS_TABLE ∧
    ((initialize_aws_resources names).any fun c => c.tableName == ATTENDANCE_TABLE) =
      !names.contains ATTENDANCE_TABLE ∧
    initialize_aws_resources [USERS_TABLE, ATTENDANCE_TABLE] = [] := by
  refine ⟨rfl, rfl, rfl, rfl, rfl, rfl, ?_, ?_, by simp [initialize_aws_resources]⟩
  · by_cases h1 : "FaceAttendanceUsers" ∈ names <;>
      by_cases h2 : "FaceAttendanceRecords" ∈ names <;>
      simp [initialize_aws_resources, h1, h2, List.elem_iff,
        users_table_create, attendance_table_create, USERS_TABLE, ATTENDANCE_TABLE]
  · by_cases h1 : "FaceAttendanceUsers" ∈ names <;>
      by_cases h2 : "FaceAttendanceRecords" ∈ names <;>
      simp [initialize_aws_resources, h1, h2, List.elem_iff,
        users_table_create, attendance_table_create, USERS_TABLE, ATTENDANCE_TABLE]

end Attendance

namespace Attendance

theorem csv_foldl (rs : List AttendanceRecord) (acc : String) :
    rs.foldl (fun a r => a ++ record_csv_line r ++ "\n") acc =
      acc ++ (rs.map (fun r => record_csv_line r ++ "\n")).foldr (fun l t => l ++ t) "" := by
  induction rs generalizing acc with
  | nil => simp
  | cons r rs ih =>
      rw [List.foldl_cons, ih]
      simp [String.append_assoc]

/-- C5: the exported CSV text is the literal header line followed by
one line per scanned record, each line holding the user_id, name,
formatted time, status and formatted confidence of its record in that
order; when the filtered scan returns no records, or the operator
cancels the save dialog, no file is written. -/
theorem export_attendance_report_spec (table : List AttendanceRecord) (date p : String)
    (sp : Option String) (records : List AttendanceRecord) (r : AttendanceRecord) :
    (attendance_scan table date = [] → export_attendance_report table date sp = none) ∧
    export_attendance_report table date none = none ∧
    (attendance_scan table date ≠ [] →
      export_attendance_report table date (some p) =
        some (p, csv_content (attendance_scan table date))) ∧
    csv_content records =
      csv_header ++ "\n" ++
        (records.map (fun x => record_csv_line x ++ "\n")).foldr (fun l t => l ++ t) "" ∧
    record_csv_line r =
      r.user_id ++ "," ++ r.name ++ "," ++ format_record_time r.timestamp ++ "," ++
        r.status ++ "," ++ format_fixed2 r.confidence ++ "%" := by
  refine ⟨?_, ?_, ?_, ?_, rfl⟩
  · intro h
    simp [export_attendance_report, h]
  · simp only [export_attendance_report]
    split
    · rfl
    · rfl
  · intro h
    have : (attendance_scan table date).isEmpty = false := by
      simpa [List.isEmpty_iff] using h
    simp [export_attendance_report, this]
  · rw [csv_content, csv_foldl]

end Attendance

namespace Attendance

/-- C5, witness: the export evaluated on a one-record table whose
timestamp falls on the report date. -/
theorem export_attendance_report_spec_witness :
    attendance_scan
        [{ user_id := "u1", name := "Alice", timestamp := "2025-01-15T08:30:00",
           status := "present", confidence := 95 }] "2025-01-15" ≠ [] ∧
    export_attendance_report
        [{ user_id := "u1", name := "Alice", timestamp := "2025-01-15T08:30:00",
           status := "present", confidence := 95 }] "2025-01-15" (some "out.csv") =
      some ("out.csv",
        csv_content
          (attendance_scan
            [{ user_id := "u1", name := "Alice", timestamp := "2025-01-15T08:30:00",
               status := "present", confidence := 95 }] "2025-01-15")) :=
  ⟨by decide,
    (export_attendance_report_spec
        [{ user_id := "u1", name := "Alice", timestamp := "2025-01-15T08:30:00",
           status := "present", confidence := 95 }]
        "2025-01-15" "out.csv" none []
        { user_id := "", name := "", timestamp := "", status := "",
          confidence := 0 }).2.2.1 (by decide)⟩

end Attendance

namespace Attendance

theorem camera_inv_initial : camera_inv initial_camera_state :=
  ⟨by simp [initial_camera_state], fun _ => rfl⟩

theorem camera_inv_step (s : CameraState) (e : CameraEvent) (hj : stop_join_ok e = true)
    (h : camera_inv s) : camera_inv (camera_step s e) := by
  obtain ⟨h1, h2⟩ := h
  cases e with
  | start o r =>
      simp only [camera_step, start_camera]
      split
      · exact ⟨h1, h2⟩
      · split
        · exact ⟨h1, h2⟩
        · split
          · exact ⟨h1, h2⟩
          · rename_i hrun _ _
            have : s.is_camera_running = false := by
              cases hb : s.is_camera_running
              · rfl
              · exact absurd hb hrun
            refine ⟨?_, ?_⟩
            · simp [h2 this]
            · intro hc
              simp at hc
  | stop j =>
      have : j = true := hj
      subst this
      exact ⟨by simp [camera_step, stop_camera], fun _ => by simp [camera_step, stop_camera]⟩
  | threadExit =>
      refine ⟨?_, ?_⟩
      · exact le_trans (Nat.sub_le _ _) h1
      · intro hr
        have := h2 hr
        simp [camera_step, this]

theorem camera_run_inv (events : List CameraEvent)
    (hj : events.all stop_join_ok = true) : camera_inv (camera_run events) := by
  have main : ∀ es : List CameraEvent, es.all stop_join_ok = true →
      ∀ s : CameraState, camera_inv s → camera_inv (es.foldl camera_step s) := by
    intro es
    induction es with
    | nil => intro _ s h; exact h
    | cons e es ih =>
        intro hall s h
        rw [List.all_cons, Bool.and_eq_true] at hall
        exact ih hall.2 _ (camera_inv_step s e hall.1 h)
  exact main events hj initial_camera_state camera_inv_initial

/-- C7, counterexample: when a stop whose one-second join times out
(the camera thread still blocked in a read) is followed by another
start, the running flag is down at the start call, so a second thread
is spawned while the first is still alive: the thread count reaches
two, refuting the claim that at most one background camera thread
exists at any time. -/
theorem camera_two_threads_counterexample :
    (camera_run [CameraEvent.start true true, CameraEvent.stop false,
      CameraEvent.start true true]).thread_count = 2 := by
  decide

/-- C7 (amended): start_camera returns its state unchanged, spawning
nothing, whenever the running flag is already set; an iteration of the
update_camera loop performs no direct widget update from the thread
and posts the frame display update through after_idle; and in every
run in which each stop joins its thread within the one-second timeout,
at most one camera thread is ever live.  Without that proviso the
bound can be exceeded, as the counterexample shows. -/
theorem camera_thread_spec (s : CameraState) (o r : Bool) (events : List CameraEvent)
    (reg : Bool) (fc : Nat) :
    (s.is_camera_running = true → start_camera s o r = s) ∧
    (events.all stop_join_ok = true → (camera_run events).thread_count ≤ 1) ∧
    (update_camera_iteration true reg fc).direct_widget_updates = [] ∧
    (update_camera_iteration false reg fc).direct_widget_updates = [] ∧
    UIUpdate.displayFrame ∈ (update_camera_iteration true reg fc).posted_after_idle := by
  refine ⟨?_, fun hj => (camera_run_inv events hj).1, ?_, rfl, ?_⟩
  · intro h
    simp [start_camera, h]
  · simp [update_camera_iteration]
  · simp [update_camera_iteration]

/-- C7, witness: start_camera evaluated on a state whose running flag
is already set, and the thread bound evaluated on a run whose stop
join completes. -/
theorem camera_thread_spec_witness :
    ({ is_camera_running := true, camera_open := true,
       thread_count := 1 } : CameraState).is_camera_running = true ∧
    start_camera { is_camera_running := true, camera_open := true, thread_count := 1 }
        true true =
      { is_camera_running := true, camera_open := true, thread_count := 1 } ∧
    ([CameraEvent.start true true, CameraEvent.stop true,
        CameraEvent.start true true].all stop_join_ok = true ∧
      (camera_run [CameraEvent.start true true, CameraEvent.stop true,
        CameraEvent.start true true]).thread_count ≤ 1) :=
  ⟨rfl,
    (camera_thread_spec
      { is_camera_running := true, camera_open := true, thread_count := 1 }
      true true [] true 0).1 rfl,
    by decide,
    (camera_thread_spec
      { is_camera_running := true, camera_open := true, thread_count := 1 }
      true true
      [CameraEvent.start true true, CameraEvent.stop true, CameraEvent.start true true]
      true 0).2.1 (by decide)⟩

end Attendance

namespace Attendance

theorem py_int_eq_floor (v : ℚ) (h : 0 ≤ v) : py_int v = Int.floor v := by
  simp [py_int, h]

theorem py_int_bounds (v : ℚ) (lo hi : Int) (hlo : 0 ≤ lo)
    (h1 : (lo : ℚ) ≤ v) (h2 : v ≤ (hi : ℚ)) : lo ≤ py_int v ∧ py_int v ≤ hi := by
  have hv : 0 ≤ v := le_trans (by exact_mod_cast hlo) h1
  rw [py_int_eq_floor v hv]
  constructor
  · exact Int.le_floor.mpr h1
  · calc Int.floor v ≤ Int.floor ((hi : ℚ)) := Int.floor_le_floor h2
      _ = hi := Int.floor_intCast hi

theorem process_attendance_search_params (i : ProcessInput) :
    (process_attendance i).calls.all
      (search_call_matches 1 (py_int i.match_scale)) = true := by
  simp only [process_attendance]
  split
  · rfl
  · split
    · rfl
    · split
      · simp [search_call_matches]
      · split
        · simp [search_call_matches]
        · simp [search_call_matches]

theorem verify_face_search_params (i : VerifyInput) :
    (verify_face i).calls.all (search_call_matches 10 50) = true := by
  simp only [verify_face]
  split
  · rfl
  · split
    · rfl
    · split
      · rfl
      · split
        · rfl
        · split
          · split
            · split <;> simp [search_call_matches]
            · simp [search_call_matches]
          · split <;> simp [search_call_matches]

/-- C4: every face-search call carries both its match cap and its
similarity threshold: process_attendance searches with MaxFaces 1 and
the integer value of the match-threshold slider, verify_face searches
with MaxFaces 10 and threshold 50; the slider is configured over 50 to
99 with default 70, and over that range the integer slider value stays
within 50 to 99. -/
theorem search_faces_params_spec (pi : ProcessInput) (vi : VerifyInput) (v : ℚ) :
    (process_attendance pi).calls.all
      (search_call_matches 1 (py_int pi.match_scale)) = true ∧
    (verify_face vi).calls.all (search_call_matches 10 50) = true ∧
    match_threshold_min = 50 ∧
    match_threshold_max = 99 ∧
    match_threshold_default = 70 ∧
    (match_threshold_min ≤ v → v ≤ match_threshold_max →
      50 ≤ py_int v ∧ py_int v ≤ 99) := by
  refine ⟨process_attendance_search_params pi, verify_face_search_params vi,
    rfl, rfl, rfl, ?_⟩
  intro h1 h2
  exact py_int_bounds v 50 99 (by norm_num)
    (by exact_mod_cast h1) (by exact_mod_cast h2)

/-- C4, witness: the bounds conjunct evaluated at slider value 70 and
both procedures evaluated on concrete inputs. -/
theorem search_faces_params_spec_witness :
    match_threshold_min ≤ (70 : ℚ) ∧ (70 : ℚ) ≤ match_threshold_max ∧
    (50 ≤ py_int 70 ∧ py_int 70 ≤ 99) := by
  have h1 : match_threshold_min ≤ (70 : ℚ) := by norm_num [match_threshold_min]
  have h2 : (70 : ℚ) ≤ match_threshold_max := by norm_num [match_threshold_max]
  exact ⟨h1, h2,
    (search_faces_params_spec
      { has_image := false, match_scale := 70, face_details := [], face_matches := [],
        user_found := none, hour := 0, now_iso := "" }
      { has_image := false, user_id := "", face_details := [], face_matches := [],
        user_found := none }
      70).2.2.2.2.2 h1 h2⟩

end Attendance

namespace Attendance

theorem quality_filter_of_medium_or_high (t : Int) (h : 70 ≤ t) :
    quality_filter_of t = "MEDIUM" ∨ quality_filter_of t = "HIGH" := by
  unfold quality_filter_of
  split
  · right; rfl
  · left; rfl

theorem register_user_quality_tier (i : RegisterInput)
    (h : (70 : ℚ) ≤ i.quality_scale) :
    (register_user i).calls.all index_quality_medium_or_high = true := by
  have ht : 70 ≤ py_int i.quality_scale := by
    have hv : 0 ≤ i.quality_scale := le_trans (by norm_num) h
    rw [py_int_eq_floor _ hv]
    exact Int.le_floor.mpr (by exact_mod_cast h)
  have hq := quality_filter_of_medium_or_high (py_int i.quality_scale) ht
  simp only [register_user]
  split
  · rfl
  · split
    · rfl
    · split
      · rfl
      · split
        · rfl
        · split
          · rfl
          · split
            · rfl
            · split <;>
                rcases hq with hq | hq <;>
                simp [index_quality_medium_or_high, hq]

/-- C8: the quality filter tier is a pure function of the threshold t,
HIGH for t at least 90, MEDIUM for t in 70 to 89, LOW for t in 50 to
69 and NONE below 50; the register slider is configured over 70 to 99,
and for any slider value in that range every index-faces call issued
by register_user carries QualityFilter MEDIUM or HIGH. -/
theorem quality_filter_spec (t : Int) (i : RegisterInput) :
    (90 ≤ t → quality_filter_of t = "HIGH") ∧
    (70 ≤ t → t < 90 → quality_filter_of t = "MEDIUM") ∧
    (50 ≤ t → t < 70 → quality_filter_of t = "LOW") ∧
    (t < 50 → quality_filter_of t = "NONE") ∧
    quality_threshold_min = 70 ∧
    quality_threshold_max = 99 ∧
    quality_threshold_default = 80 ∧
    (quality_threshold_min ≤ i.quality_scale → i.quality_scale ≤ quality_threshold_max →
      (register_user i).calls.all index_quality_medium_or_high = true) := by
  refine ⟨?_, ?_, ?_, ?_, rfl, rfl, rfl, ?_⟩
  · intro h
    simp [quality_filter_of, h]
  · intro h1 h2
    rw [quality_filter_of, if_neg (by omega), if_pos h1]
  · intro h1 h2
    rw [quality_filter_of, if_neg (by omega), if_neg (by omega), if_pos h1]
  · intro h
    rw [quality_filter_of, if_neg (by omega), if_neg (by omega), if_neg (by omega)]
  · intro h1 _
    exact register_user_quality_tier i (by exact_mod_cast h1)

/-- C8, witness: the tier mapping evaluated at threshold 80, and the
register pipeline evaluated on a concrete input with slider value
80. -/
theorem quality_filter_spec_witness :
    (70 ≤ (80 : Int) ∧ (80 : Int) < 90 ∧ quality_filter_of 80 = "MEDIUM") ∧
    (quality_threshold_min ≤ (80 : ℚ) ∧ (80 : ℚ) ≤ quality_threshold_max ∧
      (register_user
        { user_id := "u1", name := "Alice", email := "a@b.c", department := "IT",
          has_image := true, quality_scale := 80, user_exists := false,
          face_details := [{ brightness := 50, sharpness := 50 }],
          low_quality_confirm := false,
          index_face_records := [{ face_id := "f1", confidence := 99 }],
          now_iso := "2025-01-15T08:30:00" }).calls.all
        index_quality_medium_or_high = true) := by
  have ha : (70 : Int) ≤ 80 := by norm_num
  have hb : (80 : Int) < 90 := by norm_num
  have hc : quality_threshold_min ≤ (80 : ℚ) := by norm_num [quality_threshold_min]
  have hd : (80 : ℚ) ≤ quality_threshold_max := by norm_num [quality_threshold_max]
  refine ⟨⟨ha, hb, ?_⟩, hc, hd, ?_⟩
  · exact (quality_filter_spec 80
      { user_id := "", name := "", email := "", department := "", has_image := false,
        quality_scale := 0, user_exists := false, face_details := [],
        low_quality_confirm := false, index_face_records := [],
        now_iso := "" }).2.1 ha hb
  · exact (quality_filter_spec 0
      { user_id := "u1", name := "Alice", email := "a@b.c", department := "IT",
        has_image := true, quality_scale := 80, user_exists := false,
        face_details := [{ brightness := 50, sharpness := 50 }],
        low_quality_confirm := false,
        index_face_records := [{ face_id := "f1", confidence := 99 }],
        now_iso := "2025-01-15T08:30:00" }).2.2.2.2.2.2.2 hc hd

end Attendance

namespace Attendance

theorem append_ne_empty_of_right (a b : String) (h : b.data ≠ []) : a ++ b ≠ "" := by
  intro heq
  have h2 := congrArg String.data heq
  rw [String.data_append] at h2
  exact h (List.append_eq_nil.mp h2).2

/-- C9: whenever the submitted user id already exists, or the captured
image contains zero faces or more than one face, register_user returns
after setting a status message, and the remote calls it has issued
include neither an index-faces call nor a put-item call, so the face
collection and the users table are left unchanged. -/
theorem register_user_early_exit_spec (i : RegisterInput)
    (h : i.user_exists = true ∨ i.face_details = [] ∨ 1 < i.face_details.length) :
    (register_user i).status ≠ "" ∧
    (register_user i).calls.all (fun c => !is_index_faces c && !is_put_item c) = true ∧
    (register_user i).success = false := by
  simp only [register_user]
  split
  · exact ⟨by decide, rfl, rfl⟩
  · split
    · exact ⟨by decide, rfl, rfl⟩
    · split
      · exact ⟨append_ne_empty_of_right _ " already exists" (by decide), rfl, rfl⟩
      · split
        · exact ⟨(by decide :
            ("No face detected in the image. Please try again." : String) ≠ ""),
            rfl, rfl⟩
        · split
          · exact ⟨(by decide :
              ("Multiple faces detected. Please use an image with only one face." :
                String) ≠ ""), rfl, rfl⟩
          · exfalso
            rename_i hexists hempty hlen
            rcases h with h | h | h
            · exact hexists h
            · exact hempty (by simp [h])
            · exact hlen h

/-- C9, witness: register_user evaluated on an input whose user id is
already present in the users table. -/
theorem register_user_early_exit_spec_witness :
    ((true : Bool) = true ∨
      ([{ brightness := (50 : ℚ), sharpness := 50 }] : List FaceDetail) = [] ∨
      1 < ([{ brightness := (50 : ℚ), sharpness := 50 }] : List FaceDetail).length) ∧
    (register_user
      { user_id := "u1", name := "Alice", email := "a@b.c", department := "IT",
        has_image := true, quality_scale := 80, user_exists := true,
        face_details := [{ brightness := 50, sharpness := 50 }],
        low_quality_confirm := false,
        index_face_records := [{ face_id := "f1", confidence := 99 }],
        now_iso := "2025-01-15T08:30:00" }).status ≠ "" ∧
    (register_user
      { user_id := "u1", name := "Alice", email := "a@b.c", department := "IT",
        has_image := true, quality_scale := 80, user_exists := true,
        face_details := [{ brightness := 50, sharpness := 50 }],
        low_quality_confirm := false,
        index_face_records := [{ face_id := "f1", confidence := 99 }],
        now_iso := "2025-01-15T08:30:00" }).calls.all
      (fun c => !is_index_faces c && !is_put_item c) = true := by
  have h := register_user_early_exit_spec
    { user_id := "u1", name := "Alice", email := "a@b.c", department := "IT",
      has_image := true, quality_scale := 80, user_exists := true,
      face_details := [{ brightness := 50, sharpness := 50 }],
      low_quality_confirm := false,
      index_face_records := [{ face_id := "f1", confidence := 99 }],
      now_iso := "2025-01-15T08:30:00" } (Or.inl rfl)
  exact ⟨Or.inl rfl, h.1, h.2.1⟩

/-- C10: every attendance record written by process_attendance carries
status late exactly when the capture hour is at least 9 and status
present otherwise, and no other status value is ever stored by the
attendance-capture path. -/
theorem attendance_status_spec (i : ProcessInput) (item : AttendanceRecord) :
    (process_attendance i).calls.all (put_status_of i.hour) = true ∧
    ((process_attendance i).recorded = some item →
      (9 ≤ i.hour → item.status = "late") ∧
      (i.hour < 9 → item.status = "present") ∧
      (item.status = "late" ∨ item.status = "present")) := by
  constructor
  · simp only [process_attendance]
    split
    · rfl
    · split
      · rfl
      · split
        · rfl
        · split
          · rfl
          · simp [put_status_of]
  · intro hrec
    have hstat : item.status = if 9 ≤ i.hour then "late" else "present" := by
      simp only [process_attendance] at hrec
      split at hrec
      · simp at hrec
      · split at hrec
        · simp at hrec
        · split at hrec
          · simp at hrec
          · split at hrec
            · simp at hrec
            · simp at hrec
              rw [← hrec]
    refine ⟨?_, ?_, ?_⟩
    · intro h
      rw [hstat, if_pos h]
    · intro h
      rw [hstat, if_neg (by omega)]
    · rw [hstat]
      split
      · exact Or.inl rfl
      · exact Or.inr rfl

/-- C10, witness: process_attendance evaluated on a concrete capture
at hour 10, whose written record carries status late. -/
theorem attendance_status_spec_witness :
    (process_attendance
      { has_image := true, match_scale := 70,
        face_details := [{ brightness := 50, sharpness := 50 }],
        face_matches := [{ external_image_id := "u1", similarity := 95 }],
        user_found := some
          { user_id := "u1", name := "Alice", email := "a@b.c", department := "IT",
            face_id := "f1", confidence := 99, created_at := "2025-01-01T08:00:00" },
        hour := 10, now_iso := "2025-01-15T10:05:00" }).recorded =
      some
        { user_id := "u1", name := "Alice", timestamp := "2025-01-15T10:05:00",
          status := "late", confidence := 95 } ∧
    ({ user_id := "u1", name := "Alice", timestamp := "2025-01-15T10:05:00",
       status := "late", confidence := 95 } : AttendanceRecord).status = "late" := by
  have hrec :
      (process_attendance
        { has_image := true, match_scale := 70,
          face_details := [{ brightness := 50, sharpness := 50 }],
          face_matches := [{ external_image_id := "u1", similarity := 95 }],
          user_found := some
            { user_id := "u1", name := "Alice", email := "a@b.c", department := "IT",
              face_id := "f1", confidence := 99, created_at := "2025-01-01T08:00:00" },
          hour := 10, now_iso := "2025-01-15T10:05:00" }).recorded =
        some
          { user_id := "u1", name := "Alice", timestamp := "2025-01-15T10:05:00",
            status := "late", confidence := 95 } := by
    simp [process_attendance]
  refine ⟨hrec, ?_⟩
  exact ((attendance_status_spec
    { has_image := true, match_scale := 70,
      face_details := [{ brightness := 50, sharpness := 50 }],
      face_matches := [{ external_image_id := "u1", similarity := 95 }],
      user_found := some
        { user_id := "u1", name := "Alice", email := "a@b.c", department := "IT",
          face_id := "f1", confidence := 99, created_at := "2025-01-01T08:00:00" },
      hour := 10, now_iso := "2025-01-15T10:05:00" }
    { user_id := "u1", name := "Alice", timestamp := "2025-01-15T10:05:00",
      status := "late", confidence := 95 }).2 hrec).1 (by norm_num)

end Attendance
